import Mathlib

/-!
# Verification of the mygpo subscription reconciler and podcast resolver

Shallow embedding of the subscription-handling logic of
`mygpo/api/simple.py` and the podcast lookup / caching layer of
`mygpo/db/couchdb/podcast.py`, together with proofs of the behavioural
properties stated in the specification.

Conventions:
* The per-device `SubscriptionAction` log is a `List LogEntry` in timestamp
  order (later entries are more recent); appending to the list models saving
  a new action.
* Database lookups are parameterised by an explicit store value; functions
  that in Python mutate state return the new state explicitly.
* Python exceptions are modelled with `Except`.
-/

namespace Mygpo

/-! ## Subscription action log (data model of §3 of the spec) -/

/-- The action kinds `SUBSCRIBE_ACTION` / `UNSUBSCRIBE_ACTION` from `mygpo.api.models`. -/
inductive SubAction where
  | subscribe
  | unsubscribe
deriving DecidableEq, Repr

/-- One `SubscriptionAction` row for a fixed device: the referenced podcast
(identified by its URL, the key used throughout `set_subscriptions`) and the
action kind.  The timestamp is represented by the position in the device's
log list. -/
structure LogEntry where
  podcast : String
  action : SubAction
deriving DecidableEq, Repr

/-- The most recent action for podcast `u` in the device log, if any. -/
def lastAction (log : List LogEntry) (u : String) : Option SubAction :=
  (log.reverse.find? (fun e => e.podcast == u)).map (·.action)

/-- Modelled from the spec: `Device.get_subscriptions` (defined in
`mygpo.api.models`, which is not among the provided sources).  Per §3 of the
spec, the current subscription state of a device is derived from the action
log: it is the set of podcasts whose most recent action for that device is
SUBSCRIBE.  Returned as a duplicate-free list of podcast URLs. -/
def currentSubscriptions (log : List LogEntry) : List String :=
  ((log.map (·.podcast)).dedup).filter (fun u => lastAction log u == some .subscribe)

/-- A `Device` row: unique-per-user identifier, type, display name,
soft-delete flag, and its action log. -/
structure Device where
  uid : String
  type : String
  name : String
  deleted : Bool
  log : List LogEntry
deriving DecidableEq, Repr

/-- Embedding of `Device.objects.get_or_create(user=user, uid=device_uid,
defaults={'type': 'other', 'name': device_uid})` from `set_subscriptions`:
the existing device for this (user, uid), or a fresh one built from the
defaults.  `dev?` is the lookup result for the (user, uid) pair. -/
def getOrCreate (dev? : Option Device) (uid : String) : Device :=
  match dev? with
  | some d => d
  | none => { uid := uid, type := "other", name := uid, deleted := false, log := [] }

/-- Embedding of `set_subscriptions(urls, user, device_uid)` from `mygpo/api/simple.py`:
get-or-create (and possibly undelete) the device, diff the submitted URLs
against the current subscriptions, and append one UNSUBSCRIBE action per
removed URL followed by one SUBSCRIBE action per added URL.  Returns the
resulting device state. -/
def set_subscriptions (urls : List String) (dev? : Option Device) (uid : String) :
    Device :=
  let device := getOrCreate dev? uid
  let device := if device.deleted then { device with deleted := false } else device
  let old := currentSubscriptions device.log
  let new := urls.filter (fun p => !(p ∈ old : Bool))
  let rem := old.filter (fun p => !(p ∈ urls : Bool))
  { device with
      log := device.log
        ++ rem.map (fun r => { podcast := r, action := .unsubscribe })
        ++ new.map (fun n => { podcast := n, action := .subscribe }) }

/-- HTTP-level outcome of the read path. -/
inductive ReadError where
  | http404
deriving DecidableEq, Repr

/-- Embedding of `get_subscriptions(user, device_uid)` from `mygpo/api/simple.py`:
`get_object_or_404(Device, uid=device_uid, user=user, deleted=False)`
followed by listing the subscribed podcasts.  `dev?` is the stored device
for the (user, uid) pair; a missing or soft-deleted device is a 404.  The
second component is the device store after the call: the source performs no
write on this path, so it is returned unchanged. -/
def get_subscriptions (dev? : Option Device) :
    Except ReadError (List String) × Option Device :=
  match dev? with
  | none => (.error .http404, none)
  | some d =>
      if d.deleted then (.error .http404, some d)
      else (.ok (currentSubscriptions d.log), some d)

/-! ### Log lemmas -/

theorem lastAction_append (log l : List LogEntry) (u : String) :
    lastAction (log ++ l) u = (lastAction l u).or (lastAction log u) := by
  unfold lastAction
  rw [List.reverse_append, List.find?_append]
  cases l.reverse.find? (fun e => e.podcast == u) <;> simp [Option.or]

theorem lastAction_eq_none_iff (l : List LogEntry) (u : String) :
    lastAction l u = none ↔ ∀ e ∈ l, e.podcast ≠ u := by
  unfold lastAction
  simp [List.find?_eq_none]

theorem lastAction_eq_some (l : List LogEntry) (u : String) (a : SubAction)
    (h : lastAction l u = some a) : ∃ e ∈ l, e.podcast = u ∧ e.action = a := by
  unfold lastAction at h
  obtain ⟨e, he, hmap⟩ := Option.map_eq_some'.mp h
  refine ⟨e, ?_, ?_, hmap⟩
  · exact List.mem_reverse.mp (List.mem_of_find?_eq_some he)
  · simpa using List.find?_some he

/-- Membership in the derived subscription list is exactly "the most recent
action is SUBSCRIBE". -/
theorem mem_currentSubscriptions_iff (log : List LogEntry) (u : String) :
    u ∈ currentSubscriptions log ↔ lastAction log u = some .subscribe := by
  unfold currentSubscriptions
  simp only [List.mem_filter, List.mem_dedup, List.mem_map, beq_iff_eq]
  constructor
  · rintro ⟨-, h⟩; exact h
  · intro h
    refine ⟨?_, h⟩
    obtain ⟨e, he, hpod, -⟩ := lastAction_eq_some log u _ h
    exact ⟨e, he, hpod⟩

theorem currentSubscriptions_nodup (log : List LogEntry) :
    (currentSubscriptions log).Nodup :=
  (List.nodup_dedup _).filter _

/-- The most recent action in a list of uniform actions built by
`map (fun x => ⟨x, a⟩)`. -/
theorem lastAction_mapConst (xs : List String) (a : SubAction) (u : String) :
    lastAction (xs.map (fun x => { podcast := x, action := a })) u
      = if u ∈ xs then some a else none := by
  by_cases hu : u ∈ xs
  · simp only [hu, if_true]
    rcases h : lastAction (xs.map (fun x => { podcast := x, action := a })) u with _ | b
    · rw [lastAction_eq_none_iff] at h
      exact absurd rfl (h { podcast := u, action := a } (List.mem_map_of_mem _ hu))
    · obtain ⟨e, he, -, hact⟩ := lastAction_eq_some _ _ _ h
      obtain ⟨x, -, rfl⟩ := List.mem_map.mp he
      simp at hact
      simp [hact]
  · simp only [hu, if_false]
    rw [lastAction_eq_none_iff]
    intro e he
    obtain ⟨x, hx, rfl⟩ := List.mem_map.mp he
    simp only [ne_eq]
    rintro rfl
    exact hu hx

/-! ### Reconciliation lemmas -/

theorem set_subscriptions_log (urls : List String) (dev? : Option Device) (uid : String) :
    (set_subscriptions urls dev? uid).log =
      (getOrCreate dev? uid).log
        ++ ((currentSubscriptions (getOrCreate dev? uid).log).filter
              (fun p => !(p ∈ urls : Bool))).map
            (fun r => { podcast := r, action := .unsubscribe })
        ++ (urls.filter
              (fun p => !(p ∈ currentSubscriptions (getOrCreate dev? uid).log : Bool))).map
            (fun n => { podcast := n, action := .subscribe }) := by
  unfold set_subscriptions
  by_cases h : (getOrCreate dev? uid).deleted <;> simp [h]

theorem set_subscriptions_deleted (urls : List String) (dev? : Option Device) (uid : String) :
    (set_subscriptions urls dev? uid).deleted = false := by
  unfold set_subscriptions
  by_cases h : (getOrCreate dev? uid).deleted <;> simp [h]

/-- The most recent action after appending the reconciliation delta for
`urls` to a device log: SUBSCRIBE exactly for the submitted URLs. -/
theorem lastAction_reconcile (dlog : List LogEntry) (urls : List String) (u : String) :
    lastAction
      (dlog
        ++ ((currentSubscriptions dlog).filter (fun p => !(p ∈ urls : Bool))).map
            (fun r => { podcast := r, action := .unsubscribe })
        ++ (urls.filter (fun p => !(p ∈ currentSubscriptions dlog : Bool))).map
            (fun n => { podcast := n, action := .subscribe })) u
      = some .subscribe ↔ u ∈ urls := by
  rw [List.append_assoc, lastAction_append, lastAction_append,
    lastAction_mapConst, lastAction_mapConst]
  by_cases hB : u ∈ urls.filter (fun p => !(p ∈ currentSubscriptions dlog : Bool))
  · have hu : u ∈ urls := (List.mem_filter.mp hB).1
    simp [hB, hu, Option.or]
  · by_cases hA : u ∈ (currentSubscriptions dlog).filter (fun p => !(p ∈ urls : Bool))
    · have hu : u ∉ urls := by
        have := (List.mem_filter.mp hA).2
        simpa using this
      simp [hB, hA, Option.or, hu]
    · simp only [hB, hA, if_neg, if_false, Option.or]
      rw [← mem_currentSubscriptions_iff]
      constructor
      · intro hcur
        by_contra hu
        exact hA (List.mem_filter.mpr ⟨hcur, by simpa using hu⟩)
      · intro hu
        by_contra hcur
        exact hB (List.mem_filter.mpr ⟨hu, by simpa using hcur⟩)

/-- Helper form of the round-trip property, shared by several theorems. -/
theorem mem_currentSubscriptions_set_subscriptions (urls : List String)
    (dev? : Option Device) (uid : String) (u : String) :
    u ∈ currentSubscriptions (set_subscriptions urls dev? uid).log ↔ u ∈ urls := by
  rw [mem_currentSubscriptions_iff, set_subscriptions_log]
  exact lastAction_reconcile _ urls u

/-- A reconciliation whose submitted set already equals the current
subscriptions leaves the device record untouched. -/
theorem set_subscriptions_noop (urls : List String) (d : Device) (uid' : String)
    (hdel : d.deleted = false)
    (hcur : ∀ u, u ∈ currentSubscriptions d.log ↔ u ∈ urls) :
    set_subscriptions urls (some d) uid' = d := by
  have hnew : urls.filter (fun p => !(p ∈ currentSubscriptions d.log : Bool)) = [] := by
    rw [List.filter_eq_nil_iff]
    intro p hp
    simp [(hcur p).mpr hp]
  have hrem : (currentSubscriptions d.log).filter (fun p => !(p ∈ urls : Bool)) = [] := by
    rw [List.filter_eq_nil_iff]
    intro p hp
    simp [(hcur p).mp hp]
  obtain ⟨duid, dtype, dname, ddel, dlog⟩ := d
  simp only at hdel
  subst hdel
  unfold set_subscriptions getOrCreate
  simp [hnew, hrem]

theorem count_mapConst_of_nodup (xs : List String) (hxs : xs.Nodup) (a : SubAction)
    (u : String) :
    (xs.map (fun x => ({ podcast := x, action := a } : LogEntry))).count
        { podcast := u, action := a }
      = if u ∈ xs then 1 else 0 := by
  have hinj : Function.Injective (fun x => ({ podcast := x, action := a } : LogEntry)) :=
    fun x y h => by simpa using congrArg LogEntry.podcast h
  rw [List.count_map_of_injective xs _ hinj u]
  by_cases hu : u ∈ xs
  · rw [if_pos hu]
    exact List.count_eq_one_of_mem hxs hu
  · rw [if_neg hu]
    exact List.count_eq_zero_of_not_mem hu

theorem count_mapConst_ne_action (xs : List String) (a b : SubAction) (hab : a ≠ b)
    (u : String) :
    (xs.map (fun x => ({ podcast := x, action := a } : LogEntry))).count
        { podcast := u, action := b }
      = 0 := by
  refine List.count_eq_zero_of_not_mem ?_
  simp only [List.mem_map, not_exists, not_and]
  intro x _
  simp only [LogEntry.mk.injEq, not_and]
  exact fun _ => hab

/-! ### Claim theorems for the reconciler -/

/-- Claim C1: For every device D and every submitted set of (already sanitized,
well-formed) URLs S, running the reconciler (`set_subscriptions`) on D with S
and then deriving D's current subscriptions from the action log yields exactly
S (stated as membership equivalence, i.e. set equality), regardless of D's
prior subscription state. -/
theorem set_subscriptions_roundtrip (urls : List String) (dev? : Option Device)
    (uid : String) (u : String) :
    u ∈ currentSubscriptions (set_subscriptions urls dev? uid).log ↔ u ∈ urls :=
  mem_currentSubscriptions_set_subscriptions urls dev? uid u

/-- Claim C2: For every device whose current subscription URL set is `current`
and every submitted URL set `submitted`, the reconciler appends exactly one
SUBSCRIBE action for each element of `submitted - current`, exactly one
UNSUBSCRIBE action for each element of `current - submitted`, and appends no
action for URLs present in both sets.  The appended entries are exactly
`(set_subscriptions ...).log.drop dev.log.length`. -/
theorem set_subscriptions_delta_counts (dev : Device) (uid : String)
    (urls : List String) (hurls : urls.Nodup) (u : String) :
    (((set_subscriptions urls (some dev) uid).log.drop dev.log.length).count
        { podcast := u, action := .subscribe }
      = if u ∈ urls ∧ u ∉ currentSubscriptions dev.log then 1 else 0)
    ∧ (((set_subscriptions urls (some dev) uid).log.drop dev.log.length).count
        { podcast := u, action := .unsubscribe }
      = if u ∈ currentSubscriptions dev.log ∧ u ∉ urls then 1 else 0) := by
  have hg : getOrCreate (some dev) uid = dev := rfl
  have hlog := set_subscriptions_log urls (some dev) uid
  rw [hg] at hlog
  have hdrop : (set_subscriptions urls (some dev) uid).log.drop dev.log.length
      = ((currentSubscriptions dev.log).filter (fun p => !(p ∈ urls : Bool))).map
          (fun r => { podcast := r, action := .unsubscribe })
        ++ (urls.filter (fun p => !(p ∈ currentSubscriptions dev.log : Bool))).map
          (fun n => { podcast := n, action := .subscribe }) := by
    rw [hlog, List.append_assoc, List.drop_left]
  rw [hdrop]
  constructor
  · rw [List.count_append,
      count_mapConst_ne_action _ SubAction.unsubscribe SubAction.subscribe (by simp) u,
      count_mapConst_of_nodup _ (hurls.filter _) _ u]
    have hmf : (u ∈ urls.filter (fun p => !(p ∈ currentSubscriptions dev.log : Bool)))
        ↔ (u ∈ urls ∧ u ∉ currentSubscriptions dev.log) := by
      simp [List.mem_filter]
    rw [Nat.zero_add]; exact if_congr hmf rfl rfl
  · rw [List.count_append,
      count_mapConst_of_nodup _ ((currentSubscriptions_nodup dev.log).filter _)
        SubAction.unsubscribe u,
      count_mapConst_ne_action _ SubAction.subscribe SubAction.unsubscribe (by simp) u]
    have hmf : (u ∈ (currentSubscriptions dev.log).filter (fun p => !(p ∈ urls : Bool)))
        ↔ (u ∈ currentSubscriptions dev.log ∧ u ∉ urls) := by
      simp [List.mem_filter]
    rw [Nat.add_zero]; exact if_congr hmf rfl rfl

/-- Witness for C2: the spec's scenario.  Device `dev1` currently subscribes
`{A, B}` (log of two SUBSCRIBE entries); submitting `{B, C}` appends exactly
one UNSUBSCRIBE(A) entry. -/
theorem set_subscriptions_delta_counts_witness :
    (["B", "C"] : List String).Nodup ∧
    (((set_subscriptions ["B", "C"]
        (some { uid := "dev1", type := "other", name := "dev1", deleted := false,
                log := [{ podcast := "A", action := .subscribe },
                        { podcast := "B", action := .subscribe }] })
        "dev1").log.drop 2).count { podcast := "A", action := .unsubscribe } = 1) := by
  refine ⟨by decide, ?_⟩
  have h := (set_subscriptions_delta_counts
    { uid := "dev1", type := "other", name := "dev1", deleted := false,
      log := [{ podcast := "A", action := .subscribe },
              { podcast := "B", action := .subscribe }] }
    "dev1" ["B", "C"] (by decide) "A").2
  exact h.trans (by decide)

/-- Claim C5: For every device D and submitted set S, calling the reconciler
twice in a row with the same S leaves the device (in particular its action
log) unchanged on the second call: the second call's added and removed sets
are both empty, so no new SubscriptionAction entries are appended. -/
theorem set_subscriptions_idempotent (urls : List String) (dev? : Option Device)
    (uid : String) :
    set_subscriptions urls (some (set_subscriptions urls dev? uid)) uid
      = set_subscriptions urls dev? uid :=
  set_subscriptions_noop urls _ uid (set_subscriptions_deleted urls dev? uid)
    (mem_currentSubscriptions_set_subscriptions urls dev? uid)

theorem set_subscriptions_type (urls : List String) (dev? : Option Device) (uid : String) :
    (set_subscriptions urls dev? uid).type = (getOrCreate dev? uid).type := by
  unfold set_subscriptions
  by_cases h : (getOrCreate dev? uid).deleted <;> simp [h]

theorem set_subscriptions_name (urls : List String) (dev? : Option Device) (uid : String) :
    (set_subscriptions urls dev? uid).name = (getOrCreate dev? uid).name := by
  unfold set_subscriptions
  by_cases h : (getOrCreate dev? uid).deleted <;> simp [h]

theorem set_subscriptions_uid (urls : List String) (dev? : Option Device) (uid : String) :
    (set_subscriptions urls dev? uid).uid = (getOrCreate dev? uid).uid := by
  unfold set_subscriptions
  by_cases h : (getOrCreate dev? uid).deleted <;> simp [h]

/-- Claim C8: For every subscription write to a (user, uid) pair: if no Device
exists it is created with type "other" and display name equal to the uid; if
the existing Device is soft-deleted its deleted flag is cleared before
reconciliation proceeds (the write behaves exactly like a write to the
already-undeleted device); pure reads never undelete (the device store is
returned unchanged by `get_subscriptions`), and a read of an unknown or
soft-deleted device fails with a 404 outcome. -/
theorem device_registry_behaviour (urls : List String) (uid : String) (dev : Device)
    (hdel : dev.deleted = true) :
    ((set_subscriptions urls none uid).type = "other"
      ∧ (set_subscriptions urls none uid).name = uid
      ∧ (set_subscriptions urls none uid).uid = uid)
    ∧ ((set_subscriptions urls (some dev) uid).deleted = false
      ∧ set_subscriptions urls (some dev) uid
          = set_subscriptions urls (some { dev with deleted := false }) uid)
    ∧ ((get_subscriptions none).1 = .error .http404
      ∧ (get_subscriptions (some dev)).1 = .error .http404
      ∧ (get_subscriptions (some dev)).2 = some dev) := by
  refine ⟨⟨?_, ?_, ?_⟩, ⟨set_subscriptions_deleted urls (some dev) uid, ?_⟩, ?_, ?_, ?_⟩
  · rw [set_subscriptions_type]; rfl
  · rw [set_subscriptions_name]; rfl
  · rw [set_subscriptions_uid]; rfl
  · unfold set_subscriptions getOrCreate
    simp [hdel]
  · rfl
  · simp [get_subscriptions, hdel]
  · simp [get_subscriptions, hdel]

/-- Witness for C8 at a concrete soft-deleted device. -/
theorem device_registry_behaviour_witness :
    ({ uid := "dev2", type := "other", name := "dev2", deleted := true,
       log := [] } : Device).deleted = true
    ∧ ((set_subscriptions ["X"] none "dev2").type = "other"
      ∧ (set_subscriptions ["X"] none "dev2").name = "dev2"
      ∧ (set_subscriptions ["X"] none "dev2").uid = "dev2")
    ∧ ((set_subscriptions ["X"]
          (some { uid := "dev2", type := "other", name := "dev2", deleted := true,
                  log := [] }) "dev2").deleted = false
      ∧ set_subscriptions ["X"]
          (some { uid := "dev2", type := "other", name := "dev2", deleted := true,
                  log := [] }) "dev2"
          = set_subscriptions ["X"]
              (some { uid := "dev2", type := "other", name := "dev2", deleted := false,
                      log := [] }) "dev2")
    ∧ ((get_subscriptions none).1 = .error .http404
      ∧ (get_subscriptions
          (some { uid := "dev2", type := "other", name := "dev2", deleted := true,
                  log := [] })).1 = .error .http404
      ∧ (get_subscriptions
          (some { uid := "dev2", type := "other", name := "dev2", deleted := true,
                  log := [] })).2
        = some { uid := "dev2", type := "other", name := "dev2", deleted := true,
                 log := [] }) :=
  ⟨rfl, device_registry_behaviour ["X"] "dev2"
    { uid := "dev2", type := "other", name := "dev2", deleted := true, log := [] } rfl⟩

/-! ## Podcast documents and the identifier resolver
(`mygpo/db/couchdb/podcast.py`)

The CouchDB views (`podcasts/by_id`, `podcasts/by_oldid`) are design
documents that are not among the provided sources; their row production is
modelled from the spec (§4.1) and standard CouchDB behaviour: a view queried
with a key returns one row per stored document that emits that key, and a
key emitted by no document produces no row.  The fire-and-forget
`incomplete_obj` signal (spec §4.1: it must never delay or fail the resolve
call, and it does not affect the returned value) is not modelled. -/

/-- A Python value in an identifier position: `None`, a string, or an
integer. -/
inductive PyVal where
  | none
  | str (s : String)
  | int (n : Int)
deriving DecidableEq, Repr

/-- Python truthiness: `None`, `0` and `""` are falsy. -/
def PyVal.truthy : PyVal → Bool
  | .none => false
  | .str s => !(s == "")
  | .int n => !(n == 0)

/-- Python `long(...)`: the integer value of an int or of a numeric
string. -/
def PyVal.long : PyVal → Option Int
  | .none => Option.none
  | .int n => some n
  | .str s => s.toInt?

/-- A `Podcast` document (`mygpo.core.models`): canonical id, legacy numeric
id, metadata, related-podcasts list, and the `twitter` field written by
`update_additional_data`. -/
structure Podcast where
  id : String
  oldid : Option Int
  title : String
  description : String
  related_podcasts : List String
  twitter : String
deriving DecidableEq, Repr

/-- Modelled from the spec: a `PodcastGroup` (`mygpo.core.models`, not among
the provided sources) "owns an ordered collection of member Podcasts;
exposes get member by id". -/
structure PodcastGroup where
  id : String
  members : List Podcast
deriving DecidableEq, Repr

/-- Modelled from the spec: `PodcastGroup.get_podcast_by_id` (in `mygpo.core.models`, not among the provided sources) returns the member whose id equals the queried
key (member ids are strings, so a non-string key matches no member, as in
Python where `==` across types is false). -/
def PodcastGroup.get_podcast_by_id (g : PodcastGroup) (pid : PyVal) : Option Podcast :=
  g.members.find? (fun p => PyVal.str p.id == pid)

/-- A stored document, dispatched on the `doc_type` tag. -/
inductive Doc where
  | podcast (p : Podcast)
  | group (g : PodcastGroup)
deriving DecidableEq, Repr

/-- Modelled from the spec: the keys a document emits into the
`podcasts/by_id` view (a CouchDB design document not among the provided
sources) — a podcast is indexed under its id, a group under each member's
id; per §4.1 this is what makes a member-id lookup return the stored group
document. -/
def Doc.byIdKeys : Doc → List PyVal
  | .podcast p => [.str p.id]
  | .group g => g.members.map (fun p => .str p.id)

/-- Rows of `podcasts/by_id` for one queried key: one `(key, doc)` row per
stored document emitting the key. -/
def viewById (store : List Doc) (key : PyVal) : List (PyVal × Doc) :=
  (store.filter (fun d => (key ∈ d.byIdKeys : Bool))).map (fun d => (key, d))

/-- Modelled from the spec: the composite keys a document emits into the
`podcasts/by_oldid` view (a CouchDB design document not among the provided
sources) — "for legacy-numeric lookups the original composite key carries
the member id as its second component". -/
def Doc.byOldidKeys : Doc → List (Int × String)
  | .podcast p =>
      match p.oldid with
      | some o => [(o, p.id)]
      | Option.none => []
  | .group g => g.members.filterMap (fun p => p.oldid.map (fun o => (o, p.id)))

/-- Rows of `podcasts/by_oldid` for one queried legacy id: one row per
emitted composite key whose first component matches. -/
def viewByOldid (store : List Doc) (oldid : Int) : List ((Int × String) × Doc) :=
  store.flatMap
    (fun d => (d.byOldidKeys.filter (fun k => k.1 == oldid)).map (fun k => (k, d)))

/-- The error type: `QueryParameterMissing` from `mygpo.db`, plus a Python-level type error
for arguments `long(...)` rejects. -/
inductive PyError where
  | paramMissing (arg : String)
  | typeError
deriving DecidableEq, Repr

/-- Embedding of `_wrap_podcast_group(res)`: a Podcast row is returned as is; for a
PodcastGroup row the member matching the queried key `res['key']` is
extracted. -/
def wrap_podcast_group (res : PyVal × Doc) : Option Podcast :=
  match res.2 with
  | .podcast p => some p
  | .group g => g.get_podcast_by_id res.1

/-- Embedding of `_wrap_podcast_group_key1(res)`: like `_wrap_podcast_group`, but the
member id is the second component `res['key'][1]` of the composite view
key. -/
def wrap_podcast_group_key1 (res : (Int × String) × Doc) : Option Podcast :=
  match res.2 with
  | .podcast p => some p
  | .group g => g.get_podcast_by_id (.str res.1.2)

/-- Modelled from the spec and its use: `get_single_result(db, view, ...)` (from `mygpo.db.couchdb`, not among
the provided sources): modelled from its use — the wrapper applied to the
first row of the query, or None when there is no row. -/
def get_single_result (rows : List ρ) (wrapper : ρ → Option Podcast) : Option Podcast :=
  match rows with
  | [] => Option.none
  | r :: _ => wrapper r

/-- Embedding of `podcast_by_id_uncached(podcast_id)`: `QueryParameterMissing` on a falsy
argument, otherwise the single result of the `podcasts/by_id` query wrapped
by `_wrap_podcast_group` (None when nothing matches). -/
def podcast_by_id_uncached (store : List Doc) (podcast_id : PyVal) :
    Except PyError (Option Podcast) :=
  if !podcast_id.truthy then .error (.paramMissing "podcast_id")
  else .ok (get_single_result (viewById store podcast_id) wrap_podcast_group)

/-- Embedding of `podcast_for_oldid(oldid)`: `QueryParameterMissing` only when the
argument is None; any other argument is passed through `long(...)` and used
as the `podcasts/by_oldid` query key, with `_wrap_podcast_group_key1` as the
row wrapper.  (The `cache_result` decorator on this function is modelled
separately; caching does not change the value returned for a fixed
store.) -/
def podcast_for_oldid (store : List Doc) (oldid : PyVal) :
    Except PyError (Option Podcast) :=
  match oldid with
  | .none => .error (.paramMissing "oldid")
  | v =>
      match v.long with
      | Option.none => .error .typeError
      | some k =>
          .ok (get_single_result (viewByOldid store k) wrap_podcast_group_key1)

/-- Rows of a multi-key view query (`keys=ids`): CouchDB concatenates, per
queried key in order, the rows for that key — a single fanned-out index
query rather than one request per id. -/
def viewByIdMulti (store : List Doc) (keys : List PyVal) : List (PyVal × Doc) :=
  keys.flatMap (viewById store)

/-- Embedding of `podcasts_by_id(ids)`: `QueryParameterMissing` when `ids` is None, `[]`
when it is empty, otherwise `_wrap_podcast_group` mapped over the rows of a
single multi-key `podcasts/by_id` query. -/
def podcasts_by_id (store : List Doc) (ids : Option (List PyVal)) :
    Except PyError (List (Option Podcast)) :=
  match ids with
  | Option.none => .error (.paramMissing "ids")
  | some l =>
      if l.isEmpty then .ok []
      else .ok ((viewByIdMulti store l).map wrap_podcast_group)

/-- Modelled from the spec: the keys a document emits into the
`podcasts/podcasts_groups` view (a CouchDB design document not among the
provided sources) — per the source docstring the view "gets podcast groups
and top-level podcasts for the given ids", i.e. each document is indexed
under its own id. -/
def Doc.groupsViewKeys : Doc → List PyVal
  | .podcast p => [.str p.id]
  | .group g => [.str g.id]

/-- Embedding of `_wrap_pg(doc)`: the document returned whole (groups are not unwrapped
by this view); the null-document and unknown-`doc_type` rows of the source
return None. -/
def wrap_pg (res : PyVal × Doc) : Option Doc :=
  some res.2

/-- Embedding of `podcasts_groups_by_id(ids)`: like `podcasts_by_id` but over the
`podcasts/podcasts_groups` view with `_wrap_pg` as the row wrapper. -/
def podcasts_groups_by_id (store : List Doc) (ids : Option (List PyVal)) :
    Except PyError (List (Option Doc)) :=
  match ids with
  | Option.none => .error (.paramMissing "ids")
  | some l =>
      if l.isEmpty then .ok []
      else
        .ok ((l.flatMap (fun k =>
          (store.filter (fun d => (k ∈ d.groupsViewKeys : Bool))).map
            (fun d => (k, d)))).map wrap_pg)

/-! ## Read-through cache and Podcast writes -/

/-- The process-wide cache (`django.core.cache`) as used by the
`cache_result`-decorated resolvers: entries keyed by the exact argument.
Modelled from the spec (§4.2): `cache_result` (from `mygpo.cache`, not among
the provided sources) wraps a call with a read-through cache; the one-hour
TTL is not modelled — all entries are live, which is the staleness window
the cache-invalidation claims are about. -/
structure Cache where
  entries : List (PyVal × Option Podcast)
deriving DecidableEq, Repr

/-- Modelled from the spec: `podcast_by_id = cache_result(timeout=60*60)(podcast_by_id_uncached)`:
a hit returns the cached value; a miss calls the uncached resolver and
stores a successful result (exceptions are not cached).  The second
component is the cache after the call. -/
def podcast_by_id (store : List Doc) (c : Cache) (podcast_id : PyVal) :
    Except PyError (Option Podcast) × Cache :=
  match c.entries.lookup podcast_id with
  | some v => (.ok v, c)
  | Option.none =>
      match podcast_by_id_uncached store podcast_id with
      | .error e => (.error e, c)
      | .ok v => (.ok v, ⟨(podcast_id, v) :: c.entries⟩)

/-- Embedding of `podcast.save()`: replace the stored podcast with the same id, whether it
is a top-level document or a group member. -/
def savePodcast (store : List Doc) (p : Podcast) : List Doc :=
  store.map (fun d =>
    match d with
    | .podcast q => if q.id == p.id then .podcast p else .podcast q
    | .group g =>
        .group { g with
          members := g.members.map (fun q => if q.id == p.id then p else q) })

/-- Embedding of `update_additional_data(podcast, twitter)`: set the field, save, and
clear the whole cache (`cache.clear()`).  The `repeat_on_conflict` decorator
only governs concurrent-write conflicts, which do not arise in this
sequential model. -/
def update_additional_data (store : List Doc) (_c : Cache) (podcast : Podcast)
    (twitter : String) : List Doc × Cache :=
  (savePodcast store { podcast with twitter := twitter }, { entries := [] })

/-- Embedding of `update_related_podcasts(podcast, related)`: no-op when the list is
unchanged, otherwise set the field and save.  The source performs no cache
invalidation on this path. -/
def update_related_podcasts (store : List Doc) (c : Cache) (podcast : Podcast)
    (related : List String) : List Doc × Cache :=
  if podcast.related_podcasts == related then (store, c)
  else (savePodcast store { podcast with related_podcasts := related }, c)

/-! ## Search -/

/-- The error `restkit.RequestFailed`: the search backend is unreachable or the
request fails. -/
inductive BackendError where
  | requestFailed
deriving DecidableEq, Repr

/-- Embedding of `search(q, offset, num_results)`: an empty query returns `([], 0)`;
otherwise the couchdb-lucene call (abstracted as the `backend` oracle, which
yields the wrapped result rows and the total count, or raises
`RequestFailed`) is issued, and a `RequestFailed` outcome is caught and
turned into `([], 0)` instead of propagating. -/
def search (backend : Except BackendError (List Podcast × Nat)) (q : String) :
    List Podcast × Nat :=
  if q == "" then ([], 0)
  else
    match backend with
    | .ok (podcasts, total) => (podcasts, total)
    | .error .requestFailed => ([], 0)

/-! ### Resolver lemmas and claim theorems -/

theorem viewById_eq_nil (store : List Doc) (key : PyVal)
    (h : ∀ d ∈ store, key ∉ d.byIdKeys) : viewById store key = [] := by
  unfold viewById
  have hf : store.filter (fun d => (key ∈ d.byIdKeys : Bool)) = [] :=
    List.filter_eq_nil_iff.mpr (fun d hd => by simpa using h d hd)
  rw [hf]
  rfl

theorem viewByOldid_eq_nil (store : List Doc) (n : Int) :
    (∀ d ∈ store, ∀ k ∈ d.byOldidKeys, k.1 ≠ n) → viewByOldid store n = [] := by
  unfold viewByOldid
  induction store with
  | nil => intro _; rfl
  | cons d t ih =>
      intro h
      have hd : d.byOldidKeys.filter (fun k => k.1 == n) = [] :=
        List.filter_eq_nil_iff.mpr (fun k hk => by
          simpa using h d (List.mem_cons_self d t) k hk)
      have ht := ih (fun d' hd' k hk => h d' (List.mem_cons_of_mem d hd') k hk)
      simp [hd, ht]

theorem length_flatMap (l : List α) (f : α → List β) :
    (l.flatMap f).length = (l.map (fun a => (f a).length)).sum := by
  induction l with
  | nil => rfl
  | cons a t ih => simp [List.flatMap_cons, ih]

/-- Claim C4: For every call of the resolver (`podcast_by_id` /
`podcast_for_oldid`) with an absent identifier argument, it fails with a
`ParameterMissing` error, whereas a well-formed identifier that matches no
stored entity returns null rather than raising; the two outcomes
(`Except.error` vs `Except.ok none`) are distinguishable by the caller. -/
theorem resolver_missing_param_vs_not_found (store : List Doc) (s : String)
    (n : Int) (hs : s ≠ "")
    (hnos : ∀ d ∈ store, PyVal.str s ∉ d.byIdKeys)
    (hnon : ∀ d ∈ store, ∀ k ∈ d.byOldidKeys, k.1 ≠ n) :
    podcast_by_id_uncached store .none = .error (.paramMissing "podcast_id")
    ∧ podcast_for_oldid store .none = .error (.paramMissing "oldid")
    ∧ podcast_by_id_uncached store (.str s) = .ok Option.none
    ∧ podcast_for_oldid store (.int n) = .ok Option.none := by
  refine ⟨rfl, rfl, ?_, ?_⟩
  · unfold podcast_by_id_uncached
    simp [PyVal.truthy, hs, viewById_eq_nil store _ hnos, get_single_result]
  · unfold podcast_for_oldid
    simp [PyVal.long, viewByOldid_eq_nil store n hnon, get_single_result]

/-- Witness for C4 on the empty store: `resolve(None)` raises
`ParameterMissing`, `resolve("unknown-id")` returns null. -/
theorem resolver_missing_param_vs_not_found_witness :
    ("unknown-id" ≠ "")
    ∧ podcast_by_id_uncached [] .none = .error (.paramMissing "podcast_id")
    ∧ podcast_by_id_uncached [] (.str "unknown-id") = .ok Option.none
    ∧ podcast_for_oldid [] (.int 1) = .ok Option.none := by
  have h := resolver_missing_param_vs_not_found [] "unknown-id" 1
    (by decide) (by simp) (by simp)
  exact ⟨by decide, h.1, h.2.2.1, h.2.2.2⟩

/-- Claim C10: The two single-lookup resolver entry points disagree on what
counts as a missing identifier: `podcast_by_id` raises `ParameterMissing`
for every falsy argument (None, 0, empty string), while `podcast_for_oldid`
raises `ParameterMissing` only for None and treats other falsy values such
as 0 as a valid key to look up, returning null when no entity matches. -/
theorem resolver_falsy_disagreement (store : List Doc)
    (hnon : ∀ d ∈ store, ∀ k ∈ d.byOldidKeys, k.1 ≠ 0) :
    podcast_by_id_uncached store (.int 0) = .error (.paramMissing "podcast_id")
    ∧ podcast_by_id_uncached store (.str "") = .error (.paramMissing "podcast_id")
    ∧ podcast_by_id_uncached store .none = .error (.paramMissing "podcast_id")
    ∧ podcast_for_oldid store .none = .error (.paramMissing "oldid")
    ∧ podcast_for_oldid store (.int 0) = .ok Option.none := by
  refine ⟨rfl, rfl, rfl, rfl, ?_⟩
  unfold podcast_for_oldid
  simp [PyVal.long, viewByOldid_eq_nil store 0 hnon, get_single_result]

/-- Witness for C10 on the empty store. -/
theorem resolver_falsy_disagreement_witness :
    podcast_by_id_uncached [] (.int 0) = .error (.paramMissing "podcast_id")
    ∧ podcast_for_oldid [] (.int 0) = .ok Option.none :=
  ⟨(resolver_falsy_disagreement [] (by simp)).1,
   (resolver_falsy_disagreement [] (by simp)).2.2.2.2⟩

/-- Claim C6: When the resolved document is a PodcastGroup, both row wrappers
return a member Podcast of the group whose id equals the queried key —
never the group wrapper itself — and for legacy-numeric (oldid) lookups the
member id is the second component of the composite view key. -/
theorem group_member_extraction (g : PodcastGroup) (key : String) (o : Int)
    (mid : String) (q : Podcast) :
    (wrap_podcast_group (.str key, .group g) = some q
      → q ∈ g.members ∧ q.id = key)
    ∧ (wrap_podcast_group_key1 ((o, mid), .group g) = some q
      → q ∈ g.members ∧ q.id = mid) := by
  constructor
  · intro h
    unfold wrap_podcast_group PodcastGroup.get_podcast_by_id at h
    refine ⟨List.mem_of_find?_eq_some h, ?_⟩
    have := List.find?_some h
    simpa using this
  · intro h
    unfold wrap_podcast_group_key1 PodcastGroup.get_podcast_by_id at h
    refine ⟨List.mem_of_find?_eq_some h, ?_⟩
    have := List.find?_some h
    simpa using this

/-- Members and group used by the group-transparency witness. -/
def memberOne : Podcast :=
  { id := "m1", oldid := some 3, title := "T1", description := "D1",
    related_podcasts := [], twitter := "" }

def memberTwo : Podcast :=
  { id := "m2", oldid := some 4, title := "T2", description := "D2",
    related_podcasts := [], twitter := "" }

def groupExample : PodcastGroup := { id := "g1", members := [memberOne, memberTwo] }

/-- Witness for C6: resolving member id "m2" of a two-member group yields
that member, by key for the by-id wrapper and by the key's second component
for the by-oldid wrapper. -/
theorem group_member_extraction_witness :
    (wrap_podcast_group (.str "m2", .group groupExample) = some memberTwo
      ∧ memberTwo ∈ groupExample.members ∧ memberTwo.id = "m2")
    ∧ (wrap_podcast_group_key1 ((4, "m2"), .group groupExample) = some memberTwo
      ∧ memberTwo ∈ groupExample.members ∧ memberTwo.id = "m2") :=
  ⟨⟨by decide, (group_member_extraction groupExample "m2" 4 "m2" memberTwo).1 (by decide)⟩,
   ⟨by decide, (group_member_extraction groupExample "m2" 4 "m2" memberTwo).2 (by decide)⟩⟩

/-- Claim C7, counterexample: Resolving a single id that matches no stored
document yields an empty result — zero slots for one unique input id —
refuting "exactly one result slot (possibly null) per unique input id". -/
theorem podcasts_by_id_missing_id_slotless :
    podcasts_by_id ([] : List Doc) (some [PyVal.str "missing-id"])
      = .ok ([] : List (Option Podcast))
    ∧ ([PyVal.str "missing-id"] : List PyVal).length = 1
    ∧ ([] : List (Option Podcast)).length ≠ 1 :=
  ⟨rfl, rfl, by decide⟩

/-- Claim C7, amended: `podcasts_by_id` / `podcasts_groups_by_id` raise
`ParameterMissing` for an absent (None) ids argument; otherwise
`podcasts_by_id` answers with a single fanned-out multi-key index query,
producing exactly one result slot per *matched view row*: ids matching no
document contribute no slot, and duplicated ids contribute one slot per
occurrence. -/
theorem podcasts_by_id_row_slots (store : List Doc) (ids : List PyVal) :
    podcasts_by_id store Option.none = .error (.paramMissing "ids")
    ∧ podcasts_groups_by_id store Option.none = .error (.paramMissing "ids")
    ∧ podcasts_by_id store (some ids)
        = .ok ((viewByIdMulti store ids).map wrap_podcast_group)
    ∧ ∃ res, podcasts_by_id store (some ids) = .ok res
        ∧ res.length = (ids.map (fun k => (viewById store k).length)).sum := by
  refine ⟨rfl, rfl, ?_, ?_⟩
  · cases ids <;> rfl
  · refine ⟨(viewByIdMulti store ids).map wrap_podcast_group, ?_, ?_⟩
    · cases ids <;> rfl
    · rw [List.length_map]
      exact length_flatMap ids (viewById store)

/-- Claim C9: For every search query, when the search backend is unreachable
(the backend request raises `RequestFailed`), `search` returns an empty
result — empty list and zero total — rather than propagating the failure. -/
theorem search_unreachable_empty
    (backend : Except BackendError (List Podcast × Nat)) (q : String)
    (h : backend = .error .requestFailed) :
    search backend q = ([], 0) := by
  subst h
  unfold search
  split
  · rfl
  · rfl

/-- Witness for C9 at a concrete query. -/
theorem search_unreachable_empty_witness :
    search (.error .requestFailed) "ubuntu" = ([], 0) :=
  search_unreachable_empty _ "ubuntu" rfl

/-- Claim C3, amended: After `update_additional_data` — which clears the
whole cache — a cached resolve of ANY identifier agrees with a fresh
uncached resolve against the updated store. -/
theorem update_additional_data_whole_cache_clear (store : List Doc) (c : Cache)
    (p : Podcast) (tw : String) (k : PyVal) :
    (podcast_by_id (update_additional_data store c p tw).1
        (update_additional_data store c p tw).2 k).1
      = podcast_by_id_uncached (update_additional_data store c p tw).1 k := by
  unfold update_additional_data podcast_by_id
  cases h : podcast_by_id_uncached (savePodcast store { p with twitter := tw }) k <;>
    simp [List.lookup, h]

/-- Podcast, store and cache state used by the cache-staleness
counterexample: the cache holds the result of resolving `"p1"` before the
related-podcasts update. -/
def stalePodcast : Podcast :=
  { id := "p1", oldid := Option.none, title := "t", description := "d",
    related_podcasts := [], twitter := "" }

def staleStore : List Doc := [.podcast stalePodcast]

def staleCache : Cache := (podcast_by_id staleStore { entries := [] } (.str "p1")).2

def staleWrite : List Doc × Cache :=
  update_related_podcasts staleStore staleCache stalePodcast ["q"]

/-- Claim C3, counterexample: `update_related_podcasts` writes the podcast but
does not invalidate the cache: a cached resolve of `"p1"` performed after
the write still returns the pre-write podcast, while a fresh resolve of the
same identifier returns the updated one — refuting "every Podcast write
invalidates the entire resolver cache". -/
theorem update_related_podcasts_stale_read :
    (podcast_by_id staleWrite.1 staleWrite.2 (.str "p1")).1 = .ok (some stalePodcast)
    ∧ podcast_by_id_uncached staleWrite.1 (.str "p1")
        = .ok (some { stalePodcast with related_podcasts := ["q"] })
    ∧ stalePodcast ≠ { stalePodcast with related_podcasts := ["q"] } :=
  ⟨rfl, rfl, by decide⟩
